import Mathlib

/-!
# Verification of the ArcGIS adapter layer (token manager, catalog, resolver, query builder)

Shallow embedding of `src/mcp/arcgis_client.py` and the classification rules of
`src/mcp/arcgis_fastapi_server.py`.  Network effects are modelled by explicit
response oracles passed as arguments; the Python `datetime` values are modelled
as integral seconds.
-/

namespace ArcGIS

/-- Split a character list at every occurrence of `sep`, Python `str.split(sep)`
style: the empty list yields one empty group. -/
def splitChars (sep : Char) : List Char → List (List Char)
  | [] => [[]]
  | c :: rest =>
    let r := splitChars sep rest
    if c == sep then [] :: r
    else
      match r with
      | [] => [[c]]
      | g :: gs => (c :: g) :: gs

/-- Python `s.split("/")`. -/
def splitSlash (s : String) : List String :=
  (splitChars '/' s.toList).map String.mk

/-- Python `s.endswith(suffix)`. -/
def strEndsWith (s suffix : String) : Bool :=
  suffix.toList.reverse.isPrefixOf s.toList.reverse

/-- Python `s.lower()` (ASCII, which covers every pattern the source compares). -/
def strLower (s : String) : String := String.mk (s.toList.map Char.toLower)

/-- Last path segment of a slash-separated string: `s.split("/")[-1]` in the source. -/
def lastSegment (s : String) : String := (splitSlash s).getLastD ""

/-- Python truthiness of an optional string: `None` and `""` are falsy. -/
def pyTruthyStr : Option String → Bool
  | none => false
  | some s => !(s == "")

/-- Does `pat` occur as a contiguous run inside `s`? -/
def charsContain (pat : List Char) : List Char → Bool
  | [] => pat.isEmpty
  | c :: rest => pat.isPrefixOf (c :: rest) || charsContain pat rest

/-- `pattern in s` for Python strings: substring containment. -/
def strContains (s pat : String) : Bool := charsContain pat.toList s.toList

/-- A simplified catalog entry as produced by `list_services`:
`{"name": ..., "type": ..., "folder": ...}`. -/
structure ServiceEntry where
  name : String
  svcType : String
  folder : String
deriving DecidableEq, Repr

/-! ## Catalog classification (`arcgis_fastapi_server.py`, `_is_system_service`,
`_is_hosted_service`, and the categorization loop of `list_services`) -/

/-- `system_folders` from `_is_system_service`. -/
def systemFolders : List String := ["System", "Utilities"]

/-- `system_types` from `_is_system_service`. -/
def systemTypes : List String := ["GPServer", "SymbolServer"]

/-- `system_patterns` from `_is_system_service` (the duplicate `"offline"` is kept). -/
def systemPatterns : List String :=
  ["caching", "cache", "tools", "utilities", "utility", "system", "admin",
   "management", "controller", "service", "geocoding", "printing", "raster",
   "symbol", "offline", "packaging", "sync", "validation", "version",
   "topographic", "production", "network", "location", "referencing",
   "parcel", "fabric", "publishing", "reporting", "scene", "spatial",
   "analysis", "offline"]

/-- `hosted_types` from `_is_hosted_service`. -/
def hostedTypes : List String := ["FeatureServer", "MapServer"]

/-- `hosted_patterns` from `_is_hosted_service`. -/
def hostedPatterns : List String :=
  ["hosted", "gdb", "database", "feature", "map", "layer", "data"]

/-- `_is_system_service(service_name, folder, service_type)`. -/
def isSystemService (serviceName folder serviceType : String) : Bool :=
  if systemFolders.contains folder then true
  else if systemTypes.contains serviceType then true
  else systemPatterns.any (fun p => strContains (strLower serviceName) p)

/-- `_is_hosted_service(service_name, folder, service_type)`. -/
def isHostedService (serviceName folder serviceType : String) : Bool :=
  if folder == "Hosted" then true
  else if hostedTypes.contains serviceType && folder == "Hosted" then true
  else hostedPatterns.any (fun p => strContains (strLower serviceName) p && folder == "Hosted")

/-- Categorization branch of `list_services` in `arcgis_fastapi_server.py`:
system check first, then hosted, else custom. -/
def categorizeService (serviceName folder serviceType : String) : String :=
  if isSystemService serviceName folder serviceType then "system"
  else if isHostedService serviceName folder serviceType then "hosted"
  else "custom"

/-! ## Service resolution (`arcgis_client.py`, the matching loop of
`get_service_details`, lines 206–257) -/

/-- The effective (name, folder, type) triple after the matching loop:
`service_name`, `folder` and `matching_service["type"]` as they stand at `break`. -/
structure ResolvedService where
  name : String
  folder : String
  svcType : String
deriving DecidableEq, Repr

/-- One iteration of the matching loop of `get_service_details`, applied to a
single catalog entry `e` with the (unmutated) inputs `serviceName` and `folder`.
Tiers, in source order: the embedded-path match (only when `serviceName`
contains `/` and splits into exactly two parts), then exact `(name, folder)`
equality, then `folder/name` concatenation, then both-root name equality, then
the `endswith("/name")` suffix match. -/
def matchService (serviceName folder : String) (e : ServiceEntry) : Option ResolvedService :=
  let pathParts := splitSlash serviceName
  let tier0 : Option ResolvedService :=
    if pathParts.length ≥ 2 then
      if pathParts.length == 2 then
        let inF := pathParts.getD 0 ""
        let inN := pathParts.getD 1 ""
        if e.name == inF ++ "/" ++ inN && e.folder == inF then
          some ⟨inN, inF, e.svcType⟩
        else none
      else none
    else none
  match tier0 with
  | some r => some r
  | none =>
    if e.name == serviceName && e.folder == folder then
      some ⟨serviceName, folder, e.svcType⟩
    else if e.name == folder ++ "/" ++ serviceName && e.folder == folder then
      some ⟨serviceName, folder, e.svcType⟩
    else if e.name == serviceName && folder == "" && e.folder == "" then
      some ⟨serviceName, folder, e.svcType⟩
    else if strEndsWith e.name ("/" ++ serviceName) && e.folder == folder then
      some ⟨lastSegment e.name, folder, e.svcType⟩
    else none

/-- The whole matching loop: the first catalog entry hitting any tier wins.
`folder` is already normalized (`folder or ""` maps `None` to `""` and is the
identity on strings). -/
def resolveService (serviceName folder : String) (catalog : List ServiceEntry) :
    Option ResolvedService :=
  catalog.findSome? (matchService serviceName folder)

/-! ## Token manager (`arcgis_client.py`: `_is_token_expired`,
`_ensure_valid_token`, `get_token_status`, `get_portal_token`).
Timestamps are integral seconds; `timedelta(minutes=5)` is 300 seconds and
`timedelta(hours=1)` is 3600 seconds. -/

/-- The mutable token fields of `ArcGISClient`: `self.portal_token` and
`self.token_expires_at` (both start as `None`). -/
structure TokenState where
  portalToken : Option String
  tokenExpiresAt : Option Int
deriving DecidableEq, Repr

/-- `timedelta(minutes=5)` in seconds: the expiry buffer of `_is_token_expired`. -/
def refreshBufferSeconds : Int := 300

/-- `_is_token_expired`: true when `portal_token` is falsy (`None` or `""`),
`token_expires_at` is `None`, or `now >= token_expires_at - buffer`. -/
def isTokenExpired (s : TokenState) (now : Int) : Bool :=
  match s.portalToken, s.tokenExpiresAt with
  | some tok, some e => if tok == "" then true else decide (now ≥ e - refreshBufferSeconds)
  | _, _ => true

/-- Outcome of one call to the token-issuance endpoint as seen by
`get_portal_token`: an HTTP 200 whose JSON has a `token` key, an HTTP 200
without one, a non-200 status, or a raised exception. -/
inductive TokenResponse where
  | ok (token : String)
  | missingToken
  | httpError (status : Nat)
  | exception (msg : String)
deriving DecidableEq, Repr

/-- `get_portal_token(expiration)`: on a 200 response carrying a `token` key it
stores the token in `self.portal_token` and returns it; on a missing key, a
non-200 status, or an exception it returns `None` and leaves the state alone.
It never touches `token_expires_at`. -/
def getPortalToken (s : TokenState) (resp : TokenResponse) : TokenState × Option String :=
  match resp with
  | .ok t => ({ s with portalToken := some t }, some t)
  | _ => (s, none)

/-- `get_portal_token`'s default `expiration` argument (the caller-requested
short default of the plain token operation). -/
def plainTokenExpirationDefault : Nat := 60

/-- The `expiration` argument `_ensure_valid_token` passes to
`get_portal_token`: 3600 ("1 hour (3600 seconds)" per the source comment). -/
def ensureValidExpirationArg : Nat := 3600

/-- Result of `_ensure_valid_token`, instrumented with the number of issuance
calls made and the `expiration` argument used (if any). -/
structure EnsureResult where
  state : TokenState
  success : Bool
  issuanceCalls : Nat
  expirationArg : Option Nat
deriving DecidableEq, Repr

/-- `_ensure_valid_token`: if the token is expired or missing it performs one
`get_portal_token(expiration=3600)` call; on a truthy token it records
`token_expires_at = now + 1 hour` and succeeds, otherwise it fails with the
state `get_portal_token` left behind.  If the token is still fresh it returns
success with no issuance call. -/
def ensureValidToken (s : TokenState) (now : Int) (resp : TokenResponse) : EnsureResult :=
  if isTokenExpired s now then
    let (s₁, tok) := getPortalToken s resp
    match tok with
    | some t =>
      if t == "" then ⟨s₁, false, 1, some ensureValidExpirationArg⟩
      else ⟨{ s₁ with tokenExpiresAt := some (now + 3600) }, true, 1, some ensureValidExpirationArg⟩
    | none => ⟨s₁, false, 1, some ensureValidExpirationArg⟩
  else ⟨s, true, 0, none⟩

/-- The observable fields of `get_token_status` (ISO-format strings are kept as
the underlying timestamps). -/
structure TokenStatus where
  hasToken : Bool
  tokenExpiresAt : Option Int
  isExpired : Bool
  minutesUntilExpiry : Option Int
deriving DecidableEq, Repr

/-- `get_token_status`: a pure read of the token state. -/
def getTokenStatus (s : TokenState) (now : Int) : TokenStatus where
  hasToken := pyTruthyStr s.portalToken
  tokenExpiresAt := s.tokenExpiresAt
  isExpired := isTokenExpired s now
  minutesUntilExpiry := s.tokenExpiresAt.map (fun e => (e - now) / 60)

/-- A token response is a failure in the sense of claim C4 exactly when the
endpoint returned no token key, a non-200 status, or raised. -/
def isFailureResp : TokenResponse → Bool
  | .ok _ => false
  | _ => true

/-! ## Catalog fetch (`arcgis_client.py`, `list_services` lines 154–185,
and `call_arcgis_api` lines 145–152).  A listing response is modelled by the
keys `list_services` inspects: an error result or a JSON body without a
`services` key both appear as `services = none`. -/

/-- A raw service dict as returned by a listing endpoint; each key may be
absent (`.get(key, "")` supplies the default at simplification time). -/
structure RawService where
  name : Option String
  svcType : Option String
  folder : Option String
deriving DecidableEq, Repr

/-- What `list_services` reads out of one `call_arcgis_api` result: the
`services` and `folders` keys if present.  `{"error": ...}` results and
non-200 responses carry neither key, hence `none`/`none`. -/
structure ApiResponse where
  services : Option (List RawService)
  folders : Option (List String)
deriving DecidableEq, Repr

/-- The simplification loop of `list_services`:
`{"name": s.get("name",""), "type": s.get("type",""), "folder": s.get("folder","")}`. -/
def simplifyService (s : RawService) : ServiceEntry :=
  ⟨s.name.getD "", s.svcType.getD "", s.folder.getD ""⟩

/-- The per-folder loop of `list_services`: for each folder name, fetch its
listing; when the result has a `services` key, tag each service with the
folder and keep them, otherwise contribute nothing. -/
def collectFolderServices (folderApi : String → ApiResponse) : List String → List RawService
  | [] => []
  | f :: fs =>
    (match (folderApi f).services with
     | some ss => ss.map (fun s => { s with folder := some f })
     | none => []) ++ collectFolderServices folderApi fs

/-- `list_services`: root services plus tagged folder services, simplified,
with the count.  Total: every fetch failure is absorbed locally. -/
def listServices (root : ApiResponse) (folderApi : String → ApiResponse) :
    List ServiceEntry × Nat :=
  let allServices := root.services.getD [] ++ collectFolderServices folderApi (root.folders.getD [])
  let simplified := allServices.map simplifyService
  (simplified, simplified.length)

/-! ## `get_service_details` (lines 187–286) past the matching loop. -/

/-- The `service_metadata` dict attached to a successful details result. -/
structure ServiceMetadata where
  name : String
  folder : String
  svcType : String
  fullPath : String
deriving DecidableEq, Repr

/-- The not-found payload of `get_service_details`:
`{"error": f"Service '{name}' not found in folder '{folder}'"}`. -/
def notFoundMessage (serviceName folder : String) : String :=
  "Service '" ++ serviceName ++ "' not found in folder '" ++ folder ++ "'"

/-- `get_service_details(service_name, folder)` given an already-fetched
catalog and an oracle `api` for the metadata call (`call_arcgis_api` on the
constructed endpoint): resolve the service; on no match return the structured
not-found error without any further call; on a match call the endpoint
`[folder/]name/type` and, on success, attach the `service_metadata` dict. -/
def getServiceDetails (α : Type) (serviceName folder : String)
    (catalog : List ServiceEntry) (api : String → Except String α) :
    Except String (α × ServiceMetadata) :=
  match resolveService serviceName folder catalog with
  | none => .error (notFoundMessage serviceName folder)
  | some r =>
    let endpoint :=
      if r.folder == "" then r.name ++ "/" ++ r.svcType
      else r.folder ++ "/" ++ r.name ++ "/" ++ r.svcType
    match api endpoint with
    | .error e => .error e
    | .ok payload =>
      .ok (payload,
        ⟨r.name, r.folder, r.svcType,
         if r.folder == "" then r.name else r.folder ++ "/" ++ r.name⟩)

/-! ## Query construction and execution (`query_service_layer`, lines 354–517,
and `get_layer_info`).  Serialized JSON fragments (`json.dumps(geometry)`,
`json.dumps(out_statistics)`) are modelled as the resulting strings; a Python
value that is falsy (`None`, `""`, `[]`, `{}`) where the source performs a
truthiness test is modelled as `none` or `""` as appropriate. -/

/-- The keyword arguments of `query_service_layer` that shape the emitted
parameter set.  `Option` marks the `Optional[...]` parameters; `geometry` holds
the `json.dumps` serialization of a nonempty geometry dict (`None` and the
falsy empty dict are both `none`), and `outStatistics` the serialization of a
nonempty statistics list. -/
structure QuerySpec where
  whereClause : String
  outFields : String
  returnGeometry : Bool
  returnIdsOnly : Bool
  returnCountOnly : Bool
  returnDistinctValues : Bool
  returnExtentOnly : Bool
  objectIds : Option (List Int)
  geometry : Option String
  geometryType : Option String
  spatialRel : Option String
  orderByFields : Option String
  groupByFieldsForStatistics : Option String
  outStatistics : Option String
  resultOffset : Option Int
  resultRecordCount : Option Int
  maxRecordCount : Option Int
deriving DecidableEq, Repr

/-- The defaults of `query_service_layer`'s signature:
`where="1=1"`, `out_fields="*"`, `return_geometry=True`, everything else
falsy/absent, `max_record_count=1000`. -/
def defaultQuerySpec : QuerySpec :=
  ⟨"1=1", "*", true, false, false, false, false,
   none, none, some "esriGeometryEnvelope", some "esriSpatialRelIntersects",
   none, none, none, none, none, some 1000⟩

/-- `str(b).lower()` for a Python bool. -/
def boolParam (b : Bool) : String := if b then "true" else "false"

/-- `",".join(map(str, xs))`. -/
def joinComma : List String → String
  | [] => ""
  | [x] => x
  | x :: y :: rest => x ++ "," ++ joinComma (y :: rest)

/-- The initial `query_params` dict of `query_service_layer` (lines 433–444):
`f`, `where` with the `"1=1"` fallback for an empty clause, `outFields`,
and the five always-emitted lowercase boolean flags. -/
def baseParams (spec : QuerySpec) : List (String × String) :=
  [("f", "json"),
   ("where", if spec.whereClause == "" then "1=1" else spec.whereClause),
   ("outFields", spec.outFields),
   ("returnGeometry", boolParam spec.returnGeometry),
   ("returnIdsOnly", boolParam spec.returnIdsOnly),
   ("returnCountOnly", boolParam spec.returnCountOnly),
   ("returnDistinctValues", boolParam spec.returnDistinctValues),
   ("returnExtentOnly", boolParam spec.returnExtentOnly)]

/-- The record-count branch (lines 446–450): `resultRecordCount` when present
and positive, otherwise `maxRecordCount` (whose `None` default 1000 was applied
at lines 410–411, modelled by `getD`). -/
def recordCountPart (spec : QuerySpec) : List (String × String) :=
  match spec.resultRecordCount with
  | some k =>
    if k > 0 then [("resultRecordCount", toString k)]
    else [("maxRecordCount", toString (spec.maxRecordCount.getD 1000))]
  | none => [("maxRecordCount", toString (spec.maxRecordCount.getD 1000))]

/-- `objectIds` (lines 452–454): emitted only for a truthy (nonempty) list,
comma-joined. -/
def objectIdsPart (spec : QuerySpec) : List (String × String) :=
  match spec.objectIds with
  | some (x :: xs) => [("objectIds", joinComma ((x :: xs).map toString))]
  | _ => []

/-- `geometry` with its companions (lines 456–460): emitted only for a truthy
geometry, together with `geometryType` and `spatialRel` (their `None` defaults
applied at lines 406–409, modelled by `getD`). -/
def geometryPart (spec : QuerySpec) : List (String × String) :=
  match spec.geometry with
  | some g =>
    [("geometry", g),
     ("geometryType", spec.geometryType.getD "esriGeometryEnvelope"),
     ("spatialRel", spec.spatialRel.getD "esriSpatialRelIntersects")]
  | none => []

/-- `orderByFields` (lines 462–464): emitted only when truthy. -/
def orderPart (spec : QuerySpec) : List (String × String) :=
  match spec.orderByFields with
  | some s => if s == "" then [] else [("orderByFields", s)]
  | none => []

/-- `groupByFieldsForStatistics` (lines 466–470): emitted only when truthy. -/
def groupPart (spec : QuerySpec) : List (String × String) :=
  match spec.groupByFieldsForStatistics with
  | some s => if s == "" then [] else [("groupByFieldsForStatistics", s)]
  | none => []

/-- `outStatistics` (lines 472–474): emitted only when truthy (nonempty). -/
def statsPart (spec : QuerySpec) : List (String × String) :=
  match spec.outStatistics with
  | some s => [("outStatistics", s)]
  | none => []

/-- `resultOffset` (lines 476–478): emitted only when present and positive. -/
def offsetPart (spec : QuerySpec) : List (String × String) :=
  match spec.resultOffset with
  | some k => if k > 0 then [("resultOffset", toString k)] else []
  | none => []

/-- The parameter-dict construction of `query_service_layer` (lines 432–478),
assembling the parts in source order. -/
def buildQueryParams (spec : QuerySpec) : List (String × String) :=
  baseParams spec ++ recordCountPart spec ++ objectIdsPart spec ++ geometryPart spec
    ++ orderPart spec ++ groupPart spec ++ statsPart spec ++ offsetPart spec

/-- Does the emitted parameter set contain key `k`? -/
def hasParam (ps : List (String × String)) (k : String) : Bool :=
  ps.any (fun p => p.1 == k)

/-- The `query_metadata` dict attached to a successful query result
(line 500–507); `query_parameters` is the very dict sent on the wire. -/
structure QueryMetadata where
  serviceName : String
  folder : String
  svcType : String
  layerId : Int
  queryParameters : List (String × String)
  timestamp : Int
deriving DecidableEq, Repr

/-- A successful `query_service_layer` payload: the backend JSON plus the
attached `query_metadata`. -/
structure QuerySuccess (α : Type) where
  backend : α
  queryMetadata : QueryMetadata
deriving DecidableEq, Repr

/-- `query_service_layer`: resolve the service through `get_service_details`
(propagating its error payload), build the query parameters, ensure a valid
token, attach the cached token to the parameter dict when truthy, perform the
query, and on success return the backend payload with `query_metadata`
(which embeds the parameter dict, token included) attached. -/
def queryServiceLayer (α β : Type) (serviceName folder : String) (layerId : Int)
    (spec : QuerySpec) (catalog : List ServiceEntry)
    (detailsApi : String → Except String β)
    (tokState : TokenState) (now : Int) (tokenResp : TokenResponse)
    (queryApi : String → List (String × String) → Except String α) :
    Except String (QuerySuccess α) :=
  match getServiceDetails β serviceName folder catalog detailsApi with
  | .error e => .error e
  | .ok (_, md) =>
    let queryEndpoint :=
      if md.folder == "" then
        md.name ++ "/" ++ md.svcType ++ "/" ++ toString layerId ++ "/query"
      else
        md.folder ++ "/" ++ md.name ++ "/" ++ md.svcType ++ "/" ++ toString layerId ++ "/query"
    let params := buildQueryParams spec
    let er := ensureValidToken tokState now tokenResp
    let wireParams :=
      match er.state.portalToken with
      | some t => if t == "" then params else params ++ [("token", t)]
      | none => params
    match queryApi queryEndpoint wireParams with
    | .error e => .error e
    | .ok payload =>
      .ok ⟨payload, ⟨md.name, md.folder, md.svcType, layerId, wireParams, now⟩⟩

/-! ## Concrete oracles and payloads used by the scenario theorems -/

/-- Metadata-call oracle for concrete scenarios: every endpoint succeeds with
an empty payload. -/
def okUnitApi : String → Except String Unit := fun _ => .ok ()

/-- Query-call oracle for concrete scenarios: every request succeeds. -/
def okQueryApi : String → List (String × String) → Except String Unit := fun _ _ => .ok ()

/-- Folder-listing oracle for the catalog scenario: the folder `Good` lists one
service, the folder `Bad` fails (an error payload, hence no `services` key). -/
def claim8WitnessApi : String → ApiResponse := fun f =>
  if f == "Good" then ⟨some [⟨some "S", some "FeatureServer", none⟩], none⟩
  else ⟨none, none⟩

/-- The exact success payload `query_service_layer` produces in the concrete
token-leak scenario: the emitted parameter dict — cached token included — is
echoed under `query_metadata.query_parameters`. -/
def claim2Payload : QuerySuccess Unit :=
  ⟨(), ⟨"Svc", "", "MapServer", 0,
    [("f", "json"), ("where", "1=1"), ("outFields", "*"),
     ("returnGeometry", "true"), ("returnIdsOnly", "false"),
     ("returnCountOnly", "false"), ("returnDistinctValues", "false"),
     ("returnExtentOnly", "false"), ("maxRecordCount", "1000"),
     ("token", "SECRET")], 0⟩⟩

/-! # Theorems -/

/-- C1, counterexample: with the catalog entry recorded exactly as the spec
sentence writes it — `{name:"TouristAttractions", folder:"Hosted"}` — the call
`resolve("TouristAttractions","Hosted")` succeeds but
`resolve("Hosted/TouristAttractions","")` returns no match, so the two calls do
not both succeed with the identical descriptor. -/
theorem claim1_counterexample :
    resolveService "TouristAttractions" "Hosted"
        [⟨"TouristAttractions", "FeatureServer", "Hosted"⟩]
      = some ⟨"TouristAttractions", "Hosted", "FeatureServer"⟩
    ∧ resolveService "Hosted/TouristAttractions" ""
        [⟨"TouristAttractions", "FeatureServer", "Hosted"⟩]
      = none := by
  constructor
  · decide
  · decide

/-- C1, amended: when the catalog records the TouristAttractions entry in the
path form the folder listing actually produces —
`{name:"Hosted/TouristAttractions", folder:"Hosted"}` as the first entry — the
calls `resolve("TouristAttractions","Hosted")` and
`resolve("Hosted/TouristAttractions","")` both succeed and return the identical
resolved descriptor (effective name `TouristAttractions`, folder `Hosted`, and
the entry's service type). -/
theorem claim1_path_form_entry_agrees (t : String) (rest : List ServiceEntry) :
    resolveService "TouristAttractions" "Hosted"
        (⟨"Hosted/TouristAttractions", t, "Hosted"⟩ :: rest)
      = some ⟨"TouristAttractions", "Hosted", t⟩
    ∧ resolveService "Hosted/TouristAttractions" ""
        (⟨"Hosted/TouristAttractions", t, "Hosted"⟩ :: rest)
      = some ⟨"TouristAttractions", "Hosted", t⟩ :=
  ⟨rfl, rfl⟩

/-- C2, amended: `queryServiceLayer` attaches the cached token to the outgoing
request parameters, and because that very parameter dict is echoed into the
success payload under `query_metadata.query_parameters`, the token value does
appear in the payload returned to the caller whenever a token is cached after
the validity check. -/
theorem claim2_token_echoed (α β : Type) (serviceName folder : String) (layerId : Int)
    (spec : QuerySpec) (catalog : List ServiceEntry)
    (detailsApi : String → Except String β) (tokState : TokenState) (now : Int)
    (tokenResp : TokenResponse)
    (queryApi : String → List (String × String) → Except String α)
    (t : String) (p : QuerySuccess α)
    (ht : (ensureValidToken tokState now tokenResp).state.portalToken = some t)
    (hne : t ≠ "")
    (hq : queryServiceLayer α β serviceName folder layerId spec catalog detailsApi
            tokState now tokenResp queryApi = .ok p) :
    ("token", t) ∈ p.queryMetadata.queryParameters := by
  cases hd : getServiceDetails β serviceName folder catalog detailsApi with
  | error e =>
    simp only [queryServiceLayer, hd] at hq
    exact absurd hq (by simp)
  | ok pr =>
    obtain ⟨payload, md⟩ := pr
    simp only [queryServiceLayer, hd, ht] at hq
    split at hq
    · exact absurd hq (by simp)
    · cases hq
      simp [hne]

/-- C2, counterexample: a concrete successful query with cached token `SECRET`
returns a payload whose `query_metadata.query_parameters` contains the pair
`("token", "SECRET")` — the token string does appear in the payload returned to
the caller on success, refuting the claim that it never does. -/
theorem claim2_counterexample :
    queryServiceLayer Unit Unit "Svc" "" 0 defaultQuerySpec [⟨"Svc", "MapServer", ""⟩]
        okUnitApi ⟨some "SECRET", some 10000⟩ 0 .missingToken okQueryApi
      = .ok claim2Payload
    ∧ ("token", "SECRET") ∈ claim2Payload.queryMetadata.queryParameters := by
  constructor
  · rfl
  · decide

/-- C2, witness: the amended theorem instantiated at the concrete scenario. -/
theorem claim2_witness :
    ("token", "SECRET") ∈ claim2Payload.queryMetadata.queryParameters :=
  claim2_token_echoed Unit Unit "Svc" "" 0 defaultQuerySpec [⟨"Svc", "MapServer", ""⟩]
    okUnitApi ⟨some "SECRET", some 10000⟩ 0 .missingToken okQueryApi
    "SECRET" claim2Payload rfl (by decide) rfl

/-- C3: with a cached truthy token and `now < expiresAt - 5min`,
`_ensure_valid_token` returns success with the state untouched and zero
issuance calls; whenever the expiry check fires (no token cached, no recorded
expiry, or past the buffer), it performs exactly one issuance attempt before
returning. -/
theorem claim3_ensure_valid_calls :
    (∀ (s : TokenState) (now : Int) (resp : TokenResponse) (t : String) (e : Int),
      s.portalToken = some t → t ≠ "" → s.tokenExpiresAt = some e →
      now < e - refreshBufferSeconds →
      ensureValidToken s now resp = ⟨s, true, 0, none⟩)
    ∧ (∀ (s : TokenState) (now : Int) (resp : TokenResponse),
      isTokenExpired s now = true →
      (ensureValidToken s now resp).issuanceCalls = 1) := by
  constructor
  · intro s now resp t e ht hne he hlt
    have hexp : isTokenExpired s now = false := by
      rw [show refreshBufferSeconds = 300 from rfl] at hlt
      simp [isTokenExpired, ht, he, hne, refreshBufferSeconds]
      omega
    simp [ensureValidToken, hexp]
  · intro s now resp h
    cases resp <;> simp [ensureValidToken, h, getPortalToken] <;> split <;> rfl

/-- C3, witness: a fresh token at `now = 0` with expiry 10000 is reused without
issuance; an empty state triggers exactly one issuance call. -/
theorem claim3_witness :
    ensureValidToken ⟨some "tok", some 10000⟩ 0 (.ok "fresh")
      = ⟨⟨some "tok", some 10000⟩, true, 0, none⟩
    ∧ (ensureValidToken ⟨none, none⟩ 0 (.ok "fresh")).issuanceCalls = 1 :=
  ⟨claim3_ensure_valid_calls.1 ⟨some "tok", some 10000⟩ 0 (.ok "fresh") "tok" 10000
      rfl (by decide) rfl (by decide),
   claim3_ensure_valid_calls.2 ⟨none, none⟩ 0 (.ok "fresh") (by decide)⟩

/-- C4: when the refresh attempt performed by `_ensure_valid_token` fails (the
issuance endpoint returned no token key, a non-200 status, or raised), the
previously cached token and its recorded expiry are left unchanged — the
returned state is exactly the old one — and the failure is reported as the
unsuccessful result `False`, not an exception (the model is a total function). -/
theorem claim4_refresh_failure_preserves_state
    (s : TokenState) (now : Int) (resp : TokenResponse)
    (hexp : isTokenExpired s now = true) (hfail : isFailureResp resp = true) :
    ensureValidToken s now resp = ⟨s, false, 1, some ensureValidExpirationArg⟩ := by
  cases resp with
  | ok t => simp [isFailureResp] at hfail
  | missingToken => simp [ensureValidToken, hexp, getPortalToken]
  | httpError st => simp [ensureValidToken, hexp, getPortalToken]
  | exception m => simp [ensureValidToken, hexp, getPortalToken]

/-- C4, witness: an expired state hitting a 200-without-token response keeps
its old token and expiry and reports failure. -/
theorem claim4_witness :
    ensureValidToken ⟨some "old", some 100⟩ 5000 .missingToken
      = ⟨⟨some "old", some 100⟩, false, 1, some ensureValidExpirationArg⟩ :=
  claim4_refresh_failure_preserves_state ⟨some "old", some 100⟩ 5000 .missingToken
    (by decide) (by decide)

/-- C5: whenever `_ensure_valid_token` refreshes, it passes the issuance
endpoint the lifetime 3600 = 60·60 seconds (60 minutes), which differs from
the plain operation's caller-requested default of 60; and on a successful
refresh it records the new expiry as the issuance time plus 60 minutes. -/
theorem claim5_refresh_lifetime
    (s : TokenState) (now : Int) (resp : TokenResponse)
    (hexp : isTokenExpired s now = true) :
    (ensureValidToken s now resp).expirationArg = some (60 * 60)
    ∧ ensureValidExpirationArg ≠ plainTokenExpirationDefault
    ∧ (∀ t, resp = .ok t → t ≠ "" →
        (ensureValidToken s now resp).state.tokenExpiresAt = some (now + 60 * 60)) := by
  refine ⟨?_, by decide, ?_⟩
  · cases resp <;> simp [ensureValidToken, hexp, getPortalToken, ensureValidExpirationArg]
      <;> split <;> rfl
  · intro t hresp hne
    subst hresp
    simp [ensureValidToken, hexp, getPortalToken, hne]

/-- C5, witness: refreshing an empty state at `now = 50` requests a 3600-second
lifetime and records expiry `50 + 3600`. -/
theorem claim5_witness :
    (ensureValidToken ⟨none, none⟩ 50 (.ok "fresh")).expirationArg = some (60 * 60)
    ∧ ensureValidExpirationArg ≠ plainTokenExpirationDefault
    ∧ (ensureValidToken ⟨none, none⟩ 50 (.ok "fresh")).state.tokenExpiresAt
        = some (50 + 60 * 60) :=
  ⟨(claim5_refresh_lifetime ⟨none, none⟩ 50 (.ok "fresh") (by decide)).1,
   (claim5_refresh_lifetime ⟨none, none⟩ 50 (.ok "fresh") (by decide)).2.1,
   (claim5_refresh_lifetime ⟨none, none⟩ 50 (.ok "fresh") (by decide)).2.2 "fresh" rfl
     (by decide)⟩

/-- C6: system rules take precedence (whatever the hosted rules would say, a
service passing `_is_system_service` is categorized `system`); a service named
`GeocodeServer` in folder `System` is `system` for every type; a service named
`TouristAttractions` in folder `Hosted` is `hosted` (for every type outside the
system-type set); a service named `MyCustomApp` in the root folder is `custom`
(for every type outside the system-type set). -/
theorem claim6_classification :
    (∀ n f t, isSystemService n f t = true → categorizeService n f t = "system")
    ∧ (∀ t, categorizeService "GeocodeServer" "System" t = "system")
    ∧ (∀ t, systemTypes.contains t = false →
        categorizeService "TouristAttractions" "Hosted" t = "hosted")
    ∧ (∀ t, systemTypes.contains t = false →
        categorizeService "MyCustomApp" "" t = "custom") := by
  refine ⟨?_, ?_, ?_, ?_⟩
  · intro n f t h
    simp [categorizeService, h]
  · intro t
    have hs : isSystemService "GeocodeServer" "System" t = true := by
      simp only [isSystemService]
      rw [show systemFolders.contains "System" = true from by decide]
      simp
    simp [categorizeService, hs]
  · intro t ht
    have hs : isSystemService "TouristAttractions" "Hosted" t = false := by
      simp only [isSystemService]
      rw [show systemFolders.contains "Hosted" = false from by decide, ht,
        show (systemPatterns.any fun p => strContains (strLower "TouristAttractions") p) = false
          from by decide]
      simp
    have hh : isHostedService "TouristAttractions" "Hosted" t = true := by
      simp only [isHostedService]
      rw [show ("Hosted" == "Hosted") = true from rfl]
      simp
    simp [categorizeService, hs, hh]
  · intro t ht
    have hs : isSystemService "MyCustomApp" "" t = false := by
      simp only [isSystemService]
      rw [show systemFolders.contains "" = false from by decide, ht,
        show (systemPatterns.any fun p => strContains (strLower "MyCustomApp") p) = false
          from by decide]
      simp
    have hh : isHostedService "MyCustomApp" "" t = false := by
      simp only [isHostedService]
      rw [show ("" == "Hosted") = false from rfl]
      simp
    simp [categorizeService, hs, hh]

/-- C6, witness: the three spec examples with concrete service types. -/
theorem claim6_witness :
    categorizeService "GeocodeServer" "System" "GeocodeServer" = "system"
    ∧ categorizeService "TouristAttractions" "Hosted" "FeatureServer" = "hosted"
    ∧ categorizeService "MyCustomApp" "" "MapServer" = "custom" :=
  ⟨claim6_classification.2.1 "GeocodeServer",
   claim6_classification.2.2.1 "FeatureServer" (by decide),
   claim6_classification.2.2.2 "MapServer" (by decide)⟩

theorem hasParam_append (a b : List (String × String)) (k : String) :
    hasParam (a ++ b) k = (hasParam a k || hasParam b k) :=
  List.any_append

theorem baseParams_recordKeys (spec : QuerySpec) :
    hasParam (baseParams spec) "resultRecordCount" = false
    ∧ hasParam (baseParams spec) "maxRecordCount" = false := by
  constructor <;> simp [baseParams, hasParam]

theorem objectIdsPart_recordKeys (spec : QuerySpec) :
    hasParam (objectIdsPart spec) "resultRecordCount" = false
    ∧ hasParam (objectIdsPart spec) "maxRecordCount" = false := by
  rcases h : spec.objectIds with _ | (_ | ⟨x, xs⟩) <;>
    simp [objectIdsPart, hasParam, h]

theorem geometryPart_recordKeys (spec : QuerySpec) :
    hasParam (geometryPart spec) "resultRecordCount" = false
    ∧ hasParam (geometryPart spec) "maxRecordCount" = false := by
  rcases h : spec.geometry with _ | g <;> simp [geometryPart, hasParam, h]

theorem orderPart_recordKeys (spec : QuerySpec) :
    hasParam (orderPart spec) "resultRecordCount" = false
    ∧ hasParam (orderPart spec) "maxRecordCount" = false := by
  rcases h : spec.orderByFields with _ | s
  · simp [orderPart, hasParam, h]
  · by_cases hs : s = ""
    · simp [orderPart, hasParam, h, hs]
    · simp [orderPart, hasParam, h, hs]

theorem groupPart_recordKeys (spec : QuerySpec) :
    hasParam (groupPart spec) "resultRecordCount" = false
    ∧ hasParam (groupPart spec) "maxRecordCount" = false := by
  rcases h : spec.groupByFieldsForStatistics with _ | s
  · simp [groupPart, hasParam, h]
  · by_cases hs : s = ""
    · simp [groupPart, hasParam, h, hs]
    · simp [groupPart, hasParam, h, hs]

theorem statsPart_recordKeys (spec : QuerySpec) :
    hasParam (statsPart spec) "resultRecordCount" = false
    ∧ hasParam (statsPart spec) "maxRecordCount" = false := by
  rcases h : spec.outStatistics with _ | s <;> simp [statsPart, hasParam, h]

theorem offsetPart_recordKeys (spec : QuerySpec) :
    hasParam (offsetPart spec) "resultRecordCount" = false
    ∧ hasParam (offsetPart spec) "maxRecordCount" = false := by
  rcases h : spec.resultOffset with _ | k
  · simp [offsetPart, hasParam, h]
  · by_cases hk : k > 0
    · simp [offsetPart, hasParam, h, hk]
    · simp [offsetPart, hasParam, h, hk]

theorem buildQueryParams_recordKeys (spec : QuerySpec) :
    hasParam (buildQueryParams spec) "resultRecordCount"
      = hasParam (recordCountPart spec) "resultRecordCount"
    ∧ hasParam (buildQueryParams spec) "maxRecordCount"
      = hasParam (recordCountPart spec) "maxRecordCount" := by
  constructor <;>
    simp [buildQueryParams, hasParam_append,
      (baseParams_recordKeys spec).1, (baseParams_recordKeys spec).2,
      (objectIdsPart_recordKeys spec).1, (objectIdsPart_recordKeys spec).2,
      (geometryPart_recordKeys spec).1, (geometryPart_recordKeys spec).2,
      (orderPart_recordKeys spec).1, (orderPart_recordKeys spec).2,
      (groupPart_recordKeys spec).1, (groupPart_recordKeys spec).2,
      (statsPart_recordKeys spec).1, (statsPart_recordKeys spec).2,
      (offsetPart_recordKeys spec).1, (offsetPart_recordKeys spec).2]

/-- C7: for every query specification, the emitted parameter set contains
`resultRecordCount` exactly when `result_record_count` is present and positive
(and then no `maxRecordCount`); otherwise it contains `maxRecordCount` with the
value `max_record_count` defaulting to 1000 (and no `resultRecordCount`); it
never contains both keys. -/
theorem claim7_record_count_exclusive (spec : QuerySpec) :
    ((∃ k, spec.resultRecordCount = some k ∧ 0 < k) →
      hasParam (buildQueryParams spec) "resultRecordCount" = true
      ∧ hasParam (buildQueryParams spec) "maxRecordCount" = false)
    ∧ (¬(∃ k, spec.resultRecordCount = some k ∧ 0 < k) →
      hasParam (buildQueryParams spec) "maxRecordCount" = true
      ∧ ("maxRecordCount", toString (spec.maxRecordCount.getD 1000)) ∈ buildQueryParams spec
      ∧ hasParam (buildQueryParams spec) "resultRecordCount" = false)
    ∧ ¬(hasParam (buildQueryParams spec) "resultRecordCount" = true
        ∧ hasParam (buildQueryParams spec) "maxRecordCount" = true) := by
  obtain ⟨h1, h2⟩ := buildQueryParams_recordKeys spec
  have hmem : recordCountPart spec ≠ [] →
      ∀ p ∈ recordCountPart spec, p ∈ buildQueryParams spec := by
    intro _ p hp
    simp [buildQueryParams, List.mem_append]
    tauto
  refine ⟨?_, ?_, ?_⟩
  · rintro ⟨k, hk, hkpos⟩
    have hrc : recordCountPart spec = [("resultRecordCount", toString k)] := by
      simp [recordCountPart, hk, hkpos]
    rw [h1, h2, hrc]
    constructor <;> simp [hasParam]
  · intro hno
    have hrc : recordCountPart spec
        = [("maxRecordCount", toString (spec.maxRecordCount.getD 1000))] := by
      rcases hk : spec.resultRecordCount with _ | k
      · simp [recordCountPart, hk]
      · have : ¬(0 < k) := fun hpos => hno ⟨k, hk, hpos⟩
        simp [recordCountPart, hk, this]
    refine ⟨?_, ?_, ?_⟩
    · rw [h2, hrc]; simp [hasParam]
    · apply hmem
      · rw [hrc]; simp
      · rw [hrc]; simp
    · rw [h1, hrc]; simp [hasParam]
  · rintro ⟨hr, hm⟩
    rw [h1] at hr
    rw [h2] at hm
    rcases hk : spec.resultRecordCount with _ | k
    · simp [recordCountPart, hk, hasParam] at hr
    · by_cases hkpos : 0 < k
      · simp [recordCountPart, hk, hkpos, hasParam] at hm
      · simp [recordCountPart, hk, hkpos, hasParam] at hr

/-- C7, witness: a spec with `resultRecordCount = 10` emits it and omits
`maxRecordCount`; the default spec emits `maxRecordCount = 1000` and omits
`resultRecordCount`. -/
theorem claim7_witness :
    (hasParam (buildQueryParams { defaultQuerySpec with resultRecordCount := some 10 })
        "resultRecordCount" = true
      ∧ hasParam (buildQueryParams { defaultQuerySpec with resultRecordCount := some 10 })
        "maxRecordCount" = false)
    ∧ (hasParam (buildQueryParams defaultQuerySpec) "maxRecordCount" = true
      ∧ ("maxRecordCount", toString ((defaultQuerySpec.maxRecordCount).getD 1000))
          ∈ buildQueryParams defaultQuerySpec
      ∧ hasParam (buildQueryParams defaultQuerySpec) "resultRecordCount" = false) :=
  ⟨(claim7_record_count_exclusive
      { defaultQuerySpec with resultRecordCount := some 10 }).1 ⟨10, rfl, by decide⟩,
   (claim7_record_count_exclusive defaultQuerySpec).2.1 (by rintro ⟨k, hk, _⟩; cases hk)⟩

theorem collectFolderServices_append (api : String → ApiResponse) (l1 l2 : List String) :
    collectFolderServices api (l1 ++ l2)
      = collectFolderServices api l1 ++ collectFolderServices api l2 := by
  induction l1 with
  | nil => rfl
  | cons f fs ih => simp [collectFolderServices, ih, List.append_assoc]

/-- C8: if one folder's listing call fails (its response carries no `services`
key — the shape of both error payloads and key-less bodies), `list_services`
returns exactly the catalog it would have assembled had that folder not been
listed at all: only that folder's services are omitted and the call still
succeeds (the model is a total function — no wholesale failure). -/
theorem claim8_folder_failure_omitted (root : ApiResponse)
    (folderApi : String → ApiResponse) (fs1 fs2 : List String) (f : String)
    (hf : root.folders = some (fs1 ++ f :: fs2))
    (hs : (folderApi f).services = none) :
    listServices root folderApi
      = listServices ⟨root.services, some (fs1 ++ fs2)⟩ folderApi := by
  have hc : collectFolderServices folderApi (fs1 ++ f :: fs2)
      = collectFolderServices folderApi (fs1 ++ fs2) := by
    rw [collectFolderServices_append, collectFolderServices_append]
    simp [collectFolderServices, hs]
  simp [listServices, hf, hc]

/-- C8, witness: a root listing folders `Good` and `Bad` where `Bad` fails
yields the same catalog as one listing only `Good`. -/
theorem claim8_witness :
    listServices ⟨some [], some ["Good", "Bad"]⟩ claim8WitnessApi
      = listServices ⟨some [], some ["Good"]⟩ claim8WitnessApi :=
  claim8_folder_failure_omitted ⟨some [], some ["Good", "Bad"]⟩ claim8WitnessApi
    ["Good"] [] "Bad" rfl rfl

/-- C9: whenever resolution finds no matching catalog entry, `get_service_details`
returns the structured not-found payload carrying the attempted name and
folder, identically for every metadata-call oracle — so no network call is
consulted and no exception crosses the boundary. -/
theorem claim9_not_found_payload (β : Type) (serviceName folder : String)
    (catalog : List ServiceEntry) (api : String → Except String β)
    (h : resolveService serviceName folder catalog = none) :
    getServiceDetails β serviceName folder catalog api
      = .error (notFoundMessage serviceName folder) := by
  unfold getServiceDetails
  rw [h]

/-- C9, witness: `resolve("Unknown","")` against the empty catalog yields no
match and `get_service_details` returns the not-found payload naming them. -/
theorem claim9_witness :
    resolveService "Unknown" "" [] = none
    ∧ getServiceDetails Unit "Unknown" "" [] okUnitApi
        = .error "Service 'Unknown' not found in folder ''" :=
  ⟨rfl, claim9_not_found_payload Unit "Unknown" "" [] okUnitApi rfl⟩

/-- C10: `get_portal_token` leaves the recorded expiry unchanged on every
outcome; hence after a successful direct issuance into a state with no
recorded expiry (no prior `_ensure_valid_token` refresh), `get_token_status`
reports `has_token` true together with `is_expired` true. -/
theorem claim10_direct_issuance_frame :
    (∀ (s : TokenState) (resp : TokenResponse),
      ((getPortalToken s resp).1).tokenExpiresAt = s.tokenExpiresAt)
    ∧ (∀ (s : TokenState) (t : String) (now : Int),
      s.tokenExpiresAt = none → t ≠ "" →
      (getTokenStatus ((getPortalToken s (.ok t)).1) now).hasToken = true
      ∧ (getTokenStatus ((getPortalToken s (.ok t)).1) now).isExpired = true) := by
  constructor
  · intro s resp
    cases resp <;> rfl
  · intro s t now he hne
    constructor
    · simp [getTokenStatus, getPortalToken, pyTruthyStr, hne]
    · simp [getTokenStatus, getPortalToken, isTokenExpired, he]

/-- C10, witness: a failed issuance keeps the expiry; a successful direct
issuance from the fresh state yields `has_token = true` and `is_expired = true`. -/
theorem claim10_witness :
    ((getPortalToken ⟨none, some 99⟩ .missingToken).1).tokenExpiresAt = some 99
    ∧ (getTokenStatus ((getPortalToken ⟨none, none⟩ (.ok "tok")).1) 0).hasToken = true
    ∧ (getTokenStatus ((getPortalToken ⟨none, none⟩ (.ok "tok")).1) 0).isExpired = true :=
  ⟨claim10_direct_issuance_frame.1 ⟨none, some 99⟩ .missingToken,
   (claim10_direct_issuance_frame.2 ⟨none, none⟩ "tok" 0 rfl (by decide)).1,
   (claim10_direct_issuance_frame.2 ⟨none, none⟩ "tok" 0 rfl (by decide)).2⟩

end ArcGIS
